import Mathlib

/-!
Shallow embedding of the LocalizacionMascota telemetry core.

The tracker node (NodoMascota) samples a GNSS fix, serializes it into a
13-byte frame and transmits it over LoRa on a modulo-of-seconds schedule;
the base node (NodoUsuario) listens continuously, decodes valid frames and
caches the last successfully decoded sample together with the RSSI/SNR of
the frame that produced it.

Embedding conventions:
- C `double` becomes `ℚ` (the codec only multiplies/divides by 100000 and
  rounds, all exact on the values at stake); `uint32_t`/`int32_t` become
  `ℕ`/`ℤ` with explicit reduction modulo `2 ^ 32`; byte buffers become
  `List ℕ` of byte values.
- `lround` is the C library rounding function: round to nearest, ties away
  from zero.
- The radio driver (RadioLib) is external to the repository; its responses
  (immediate status codes, reported packet length, received bytes, RSSI,
  SNR) enter the model as explicit parameters, and the interrupt flags it
  raises enter as explicit `Bool` inputs of each tick.
- Stateful modules (`lora_handler.cpp` on each node, the `loop()` state of
  `main.cpp`) are modelled by explicit state records and state-passing
  functions.
-/

/-- The four little-endian base-256 digits of a 32-bit value, as `memcpy`
of a 4-byte integer lays them out in the payload buffer. -/
def toLE4 (v : ℕ) : List ℕ :=
  [v % 256, v / 256 % 256, v / 65536 % 256, v / 16777216 % 256]

/-- Recombination of four little-endian bytes into the 32-bit value that
`memcpy` into a 4-byte integer reads back. -/
def fromLE4 (b0 b1 b2 b3 : ℕ) : ℕ :=
  b0 + 256 * b1 + 65536 * b2 + 16777216 * b3

/-- Reinterpretation of a 32-bit unsigned value as a two's-complement
signed `int32_t`. -/
def toInt32 (n : ℕ) : ℤ :=
  if n < 2 ^ 31 then (n : ℤ) else (n : ℤ) - 2 ^ 32

/-- Reduction of an integer into the `int32_t` range, the effect of the C
cast `(int32_t)` on the value. -/
def wrap32 (i : ℤ) : ℤ :=
  (i + 2 ^ 31) % 2 ^ 32 - 2 ^ 31

/-- The four bytes `memcpy` writes for a signed 32-bit integer
(little-endian two's complement). -/
def int32Bytes (i : ℤ) : List ℕ :=
  toLE4 (i % 2 ^ 32).toNat

/-- C `lround`: round to nearest integer, halfway cases away from zero. -/
def lround (x : ℚ) : ℤ :=
  if 0 ≤ x then ⌊x + 1 / 2⌋ else -⌊-x + 1 / 2⌋

/-- `struct GpsInfo` of `gps_handler.h`: latitude and longitude in decimal
degrees, UTC time packed as HHMMSS, and a validity flag. -/
structure GpsInfo where
  lat : ℚ
  lon : ℚ
  hhmmss : ℕ
  valid : Bool
deriving DecidableEq

/-- `GPS_buildBinaryPayload` of `NodoMascota/src/gps_handler.cpp`: writes
the 13-byte frame `[fix | hhmmss | lat*1e5 | lon*1e5]` (little-endian) at
the start of the output buffer and returns 13; returns 0 and leaves the
buffer untouched when the sample is invalid or the buffer is smaller than
13 bytes. The pair returned is (return value, buffer contents after the
call). -/
def GPS_buildBinaryPayload (info : GpsInfo) (out : List ℕ) : ℕ × List ℕ :=
  if out.length < 13 ∨ info.valid = false then (0, out)
  else
    (13,
      (1 :: (toLE4 info.hhmmss ++
             int32Bytes (wrap32 (lround (info.lat * 100000))) ++
             int32Bytes (wrap32 (lround (info.lon * 100000))))) ++ out.drop 13)

/-- `GPS_parsePayload` of `NodoMascota/src/gps_handler.cpp` (the same code
is compiled into the receiver node): rejects an input whose length is not
13 or whose first byte is not 1, otherwise reconstructs the time of day and
the two fixed-point coordinates from the little-endian fields and marks the
sample valid. -/
def GPS_parsePayload (input : List ℕ) : Option GpsInfo :=
  if input.length ≠ 13 then none
  else if input.getD 0 0 ≠ 1 then none
  else
    some
      { lat := (toInt32 (fromLE4 (input.getD 5 0) (input.getD 6 0)
                  (input.getD 7 0) (input.getD 8 0)) : ℚ) / 100000
        lon := (toInt32 (fromLE4 (input.getD 9 0) (input.getD 10 0)
                  (input.getD 11 0) (input.getD 12 0)) : ℚ) / 100000
        hhmmss := fromLE4 (input.getD 1 0) (input.getD 2 0)
                  (input.getD 3 0) (input.getD 4 0)
        valid := true }

/-- RadioLib success status. -/
def RADIOLIB_ERR_NONE : ℤ := 0

/-- RadioLib rejection status used by `LORA_startTx` for a bad payload
length. The numeric value lives in the external RadioLib headers, outside
this repository; no claim depends on it beyond being distinct from
`RADIOLIB_ERR_NONE`. -/
def RADIOLIB_ERR_INVALID_PAYLOAD : ℤ := -1

/-- Transmitter-side state: the completion flag raised by the end-of-packet
ISR and the last RadioLib status (statics of
`NodoMascota/src/lora_handler.cpp`), plus the in-flight flag and the dedupe
timestamp of the control loop (statics of `NodoMascota/src/main.cpp`). -/
structure TxState where
  transmittedFlag : Bool
  transmissionState : ℤ
  txInProgress : Bool
  lastSentHHMMSS : ℕ
deriving DecidableEq

/-- `LORA_startTx` of `NodoMascota/src/lora_handler.cpp`: rejects an empty
or over-long payload, otherwise clears the completion flag, starts the
asynchronous transmission and records the driver's immediate status.
`driverStatus` is what `radio.startTransmit` returns. The `Bool` returned
is the function's return value. -/
def LORA_startTx (payload : List ℕ) (driverStatus : ℤ) (st : TxState) :
    Bool × TxState :=
  if payload.length = 0 ∨ payload.length > 256 then
    (false, { st with transmissionState := RADIOLIB_ERR_INVALID_PAYLOAD })
  else
    (decide (driverStatus = RADIOLIB_ERR_NONE),
     { st with transmittedFlag := false, transmissionState := driverStatus })

/-- `LORA_isTxDone`: a pure read of the ISR completion flag. -/
def LORA_isTxDone (st : TxState) : Bool :=
  st.transmittedFlag

/-- `LORA_finishTx`: finalizes the in-flight operation and forces the
completion flag true. -/
def LORA_finishTx (st : TxState) : TxState :=
  { st with transmittedFlag := true }

/-- The transmit-session start operation: `LORA_startTx` as its only
caller, `loop()` of `NodoMascota/src/main.cpp`, invokes it — guarded by
`!txInProgress`, and setting the in-flight flag when the driver accepts. -/
def TX_sessionStart (payload : List ℕ) (driverStatus : ℤ) (st : TxState) :
    Bool × TxState :=
  if st.txInProgress then (false, st)
  else
    let r := LORA_startTx payload driverStatus st
    if r.1 then (true, { r.2 with txInProgress := true }) else (false, r.2)

/-- `PERIOD` of `NodoMascota/src/main.cpp`: seconds between sends. -/
def PERIOD : ℕ := 10

/-- One iteration of `loop()` of `NodoMascota/src/main.cpp`, transmit
path. `isr` tells whether the end-of-TX interrupt fired since the previous
iteration (it sets `transmittedFlag`); `hasFix` and `info` are what the
GNSS collaborator reports; `driverStatus` is the immediate status
`radio.startTransmit` would return. Returns the new state, whether a send
was attempted (`LORA_startTx` called), and whether it was accepted. -/
def loopTick (isr : Bool) (hasFix : Bool) (info : GpsInfo)
    (driverStatus : ℤ) (st0 : TxState) : TxState × Bool × Bool :=
  let st1 := if isr then { st0 with transmittedFlag := true } else st0
  let st2 := if st1.txInProgress ∧ LORA_isTxDone st1 then
               { LORA_finishTx st1 with txInProgress := false }
             else st1
  if hasFix ∧ info.valid ∧ ¬st2.txInProgress then
    if info.hhmmss ≠ st2.lastSentHHMMSS ∧ info.hhmmss % 100 % PERIOD = 0 then
      let built := GPS_buildBinaryPayload info (List.replicate 13 0)
      if built.1 = 13 then
        let r := LORA_startTx (built.2.take 13) driverStatus st2
        if r.1 then
          ({ r.2 with txInProgress := true, lastSentHHMMSS := info.hhmmss },
           true, true)
        else (r.2, true, false)
      else (st2, false, false)
    else (st2, false, false)
  else (st2, false, false)

/-- Receiver-side state, the statics of
`Software/NodoUsuario/src/lora_handler.cpp`: the ISR frame-ready flag, the
last valid decoded sample, and the RSSI/SNR recorded from the last cleanly
read packet. -/
structure RxState where
  rxFlag : Bool
  lastGps : GpsInfo
  lastRssi : ℚ
  lastSnr : ℚ
deriving DecidableEq

/-- The radio driver's responses during one receive tick: the reported
packet length, the bytes `readData` places in the buffer, its status, and
the signal metrics. -/
structure RxEnv where
  packetLength : ℤ
  bytes : List ℕ
  readStatus : ℤ
  rssi : ℚ
  snr : ℚ
deriving DecidableEq

/-- Observable driver activity of one receive tick: how many driver query
calls were made (`getPacketLength`, `readData`, `getRSSI`, `getSNR`) and
how many bytes were read into the bounded buffer. -/
structure RxEffects where
  driverReads : ℕ
  bytesRead : ℕ
deriving DecidableEq

/-- `LORA_MAX_READ` of `Software/NodoUsuario/src/lora_handler.cpp`:
capacity of the bounded receive buffer. -/
def LORA_MAX_READ : ℤ := 64

/-- The length clamping of `LORA_rxTick`: a non-positive reported length
falls back to `LORA_MAX_READ`, and anything larger is clamped to it. -/
def clampLen (n : ℤ) : ℤ :=
  let n1 := if n ≤ 0 then LORA_MAX_READ else n
  if n1 > LORA_MAX_READ then LORA_MAX_READ else n1

/-- `LORA_rxTick` of `Software/NodoUsuario/src/lora_handler.cpp`: fast
no-op exit when the frame-ready flag is clear; otherwise clears the flag,
reads the (clamped) packet into the bounded buffer and, on a clean read,
records the signal metrics and — only for a 13-byte packet with marker 1 —
decodes it and stores the sample in the cache. The re-arm of listening mode
has no effect on this state. -/
def LORA_rxTick (st : RxState) (env : RxEnv) : RxState × RxEffects :=
  if ¬st.rxFlag then (st, ⟨0, 0⟩)
  else
    let st1 := { st with rxFlag := false }
    let len := clampLen env.packetLength
    let buf := env.bytes.take len.toNat
    if env.readStatus = RADIOLIB_ERR_NONE then
      let st2 := { st1 with lastRssi := env.rssi, lastSnr := env.snr }
      if len = 13 ∧ buf.getD 0 0 = 1 then
        match GPS_parsePayload buf with
        | some gi =>
          if gi.valid then ({ st2 with lastGps := gi }, ⟨4, len.toNat⟩)
          else (st2, ⟨4, len.toNat⟩)
        | none => (st2, ⟨4, len.toNat⟩)
      else (st2, ⟨4, len.toNat⟩)
    else (st1, ⟨2, len.toNat⟩)

/-- `LORA_lastValidGPS`: exposes the cache to display/portal collaborators
once a valid sample has been stored. -/
def LORA_lastValidGPS (st : RxState) : Option (GpsInfo × ℚ × ℚ) :=
  if st.lastGps.valid then some (st.lastGps, st.lastRssi, st.lastSnr)
  else none

/-! ## Arithmetic helper lemmas -/

/-- Recombining the four little-endian digits of a value yields the value
modulo `2 ^ 32`. -/
theorem fromLE4_digits (v : ℕ) :
    fromLE4 (v % 256) (v / 256 % 256) (v / 65536 % 256) (v / 16777216 % 256) =
      v % 2 ^ 32 := by
  unfold fromLE4
  have h : (2 : ℕ) ^ 32 = 4294967296 := by norm_num
  rw [h]
  omega

/-- Reading back the stored unsigned representation of an integer yields
its `int32_t` reduction. -/
theorem toInt32_mod32 (i : ℤ) : toInt32 (i % 2 ^ 32).toNat = wrap32 i := by
  unfold toInt32 wrap32
  have h1 : (2 : ℤ) ^ 32 = 4294967296 := by norm_num
  have h2 : (2 : ℤ) ^ 31 = 2147483648 := by norm_num
  have h3 : (2 : ℕ) ^ 31 = 2147483648 := by norm_num
  rw [h1, h2, h3]
  split <;> omega

/-- The stored unsigned representation fits in 32 bits. -/
theorem mod32_toNat_lt (i : ℤ) : (i % 2 ^ 32).toNat < 2 ^ 32 := by
  have h1 : (2 : ℤ) ^ 32 = 4294967296 := by norm_num
  have h2 : (2 : ℕ) ^ 32 = 4294967296 := by norm_num
  rw [h1] at *
  rw [h2]
  omega

/-- An integer already in the `int32_t` range is unchanged by the cast. -/
theorem wrap32_eq_self (i : ℤ) (h1 : -(2 ^ 31) ≤ i) (h2 : i < 2 ^ 31) :
    wrap32 i = i := by
  unfold wrap32
  have e1 : (2 : ℤ) ^ 32 = 4294967296 := by norm_num
  have e2 : (2 : ℤ) ^ 31 = 2147483648 := by norm_num
  rw [e1, e2]
  rw [e2] at h1 h2
  omega

/-- `lround` moves a rational by at most 1/2. -/
theorem abs_lround_sub (x : ℚ) : |(lround x : ℚ) - x| ≤ 1 / 2 := by
  unfold lround
  split
  case isTrue h0 =>
    have hle : (⌊x + 1 / 2⌋ : ℚ) ≤ x + 1 / 2 := Int.floor_le _
    have hlt : x + 1 / 2 < (⌊x + 1 / 2⌋ : ℚ) + 1 := Int.lt_floor_add_one _
    rw [abs_le]
    constructor <;> [linarith; linarith]
  case isFalse h0 =>
    have hle : (⌊-x + 1 / 2⌋ : ℚ) ≤ -x + 1 / 2 := Int.floor_le _
    have hlt : -x + 1 / 2 < (⌊-x + 1 / 2⌋ : ℚ) + 1 := Int.lt_floor_add_one _
    rw [abs_le]
    push_cast
    constructor <;> [linarith; linarith]

/-- `lround` does not increase an integer absolute-value bound. -/
theorem abs_lround_le (x : ℚ) (B : ℤ) (h : |x| ≤ (B : ℚ)) : |lround x| ≤ B := by
  have hB : (0 : ℤ) ≤ B := by
    have := (abs_nonneg x).trans h
    exact_mod_cast this
  rw [abs_le] at h
  unfold lround
  split
  case isTrue h0 =>
    rw [abs_le]
    constructor
    · exact le_trans (by omega : -B ≤ 0) (Int.le_floor.mpr (by push_cast; linarith))
    · have : ⌊x + 1 / 2⌋ < B + 1 := Int.floor_lt.mpr (by push_cast; linarith)
      omega
  case isFalse h0 =>
    rw [abs_le]
    have hup : ⌊-x + 1 / 2⌋ < B + 1 := Int.floor_lt.mpr (by push_cast; linarith)
    have hdn : (0 : ℤ) ≤ ⌊-x + 1 / 2⌋ := Int.le_floor.mpr (by push_cast; linarith)
    constructor <;> omega

/-- At an exact halfway point `lround` rounds away from zero: the absolute
value strictly grows. -/
theorem lround_tie_away (x : ℚ) (h : |x - (lround x : ℚ)| = 1 / 2) :
    |x| < |(lround x : ℚ)| := by
  unfold lround at *
  split at h
  case isTrue h0 =>
    rw [if_pos h0]
    have hle : (⌊x + 1 / 2⌋ : ℚ) ≤ x + 1 / 2 := Int.floor_le _
    have hlt : x + 1 / 2 < (⌊x + 1 / 2⌋ : ℚ) + 1 := Int.lt_floor_add_one _
    have hx : (⌊x + 1 / 2⌋ : ℚ) = x + 1 / 2 := by
      rcases abs_eq (by norm_num : (0:ℚ) ≤ 1 / 2) |>.mp h with h1 | h1
      · linarith
      · linarith
    rw [abs_of_nonneg h0, hx, abs_of_nonneg (by linarith)]
    linarith
  case isFalse h0 =>
    rw [if_neg h0]
    push_neg at h0
    have hle : (⌊-x + 1 / 2⌋ : ℚ) ≤ -x + 1 / 2 := Int.floor_le _
    have hlt : -x + 1 / 2 < (⌊-x + 1 / 2⌋ : ℚ) + 1 := Int.lt_floor_add_one _
    have hx : (⌊-x + 1 / 2⌋ : ℚ) = -x + 1 / 2 := by
      push_cast at h
      rcases abs_eq (by norm_num : (0:ℚ) ≤ 1 / 2) |>.mp h with h1 | h1
      · linarith
      · linarith
    rw [abs_of_neg h0]
    push_cast
    rw [abs_neg, hx, abs_of_nonneg (by linarith : (0 : ℚ) ≤ -x + 1 / 2)]
    linarith

/-- Parsing a well-formed frame made of a marker byte 1 and three 4-byte
little-endian fields recovers the three 32-bit values. -/
theorem parse_frame (h a b : ℕ) (hh : h < 2 ^ 32) (ha : a < 2 ^ 32) (hb : b < 2 ^ 32) :
    GPS_parsePayload (1 :: (toLE4 h ++ toLE4 a ++ toLE4 b)) =
      some ⟨(toInt32 a : ℚ) / 100000, (toInt32 b : ℚ) / 100000, h, true⟩ := by
  have base : GPS_parsePayload (1 :: (toLE4 h ++ toLE4 a ++ toLE4 b)) =
      some ⟨(toInt32 (fromLE4 (a % 256) (a / 256 % 256) (a / 65536 % 256)
               (a / 16777216 % 256)) : ℚ) / 100000,
            (toInt32 (fromLE4 (b % 256) (b / 256 % 256) (b / 65536 % 256)
               (b / 16777216 % 256)) : ℚ) / 100000,
            fromLE4 (h % 256) (h / 256 % 256) (h / 65536 % 256)
               (h / 16777216 % 256), true⟩ := rfl
  rw [base, fromLE4_digits, fromLE4_digits, fromLE4_digits,
      Nat.mod_eq_of_lt hh, Nat.mod_eq_of_lt ha, Nat.mod_eq_of_lt hb]

/-- On a valid sample and a buffer of at least 13 bytes, the encoder takes
its success branch and writes the frame in front of the preserved tail. -/
theorem build_success (info : GpsInfo) (out : List ℕ) (hv : info.valid = true)
    (hlen : 13 ≤ out.length) :
    GPS_buildBinaryPayload info out =
      (13, (1 :: (toLE4 info.hhmmss ++
             int32Bytes (wrap32 (lround (info.lat * 100000))) ++
             int32Bytes (wrap32 (lround (info.lon * 100000))))) ++ out.drop 13) := by
  have hc : ¬(out.length < 13 ∨ info.valid = false) := by simp [hv]; omega
  unfold GPS_buildBinaryPayload
  rw [if_neg hc]

/-- A 13-byte input with marker 1 parses into the sample read off its
little-endian fields. -/
theorem parse_success (input : List ℕ) (hlen : input.length = 13)
    (hmark : input.getD 0 0 = 1) :
    GPS_parsePayload input =
      some { lat := (toInt32 (fromLE4 (input.getD 5 0) (input.getD 6 0)
                      (input.getD 7 0) (input.getD 8 0)) : ℚ) / 100000
             lon := (toInt32 (fromLE4 (input.getD 9 0) (input.getD 10 0)
                      (input.getD 11 0) (input.getD 12 0)) : ℚ) / 100000
             hhmmss := fromLE4 (input.getD 1 0) (input.getD 2 0)
                      (input.getD 3 0) (input.getD 4 0)
             valid := true } := by
  unfold GPS_parsePayload
  rw [if_neg (by omega), if_neg (by omega)]

/-- C5: `GPS_parsePayload` returns failure exactly when the input length is
not 13 or the first byte is not 1; otherwise it succeeds, reconstructing
the time-of-day as the raw little-endian 32-bit integer, the latitude and
longitude as the little-endian signed 32-bit integers divided by 100000,
and marking the sample valid. (The null-pointer case of the C signature
has no counterpart in the list embedding.) -/
theorem c5_parse_error_spec (input : List ℕ) :
    (GPS_parsePayload input = none ↔ input.length ≠ 13 ∨ input.getD 0 0 ≠ 1) ∧
    (GPS_parsePayload input = none ∨
      GPS_parsePayload input =
        some { lat := (toInt32 (fromLE4 (input.getD 5 0) (input.getD 6 0)
                        (input.getD 7 0) (input.getD 8 0)) : ℚ) / 100000
               lon := (toInt32 (fromLE4 (input.getD 9 0) (input.getD 10 0)
                        (input.getD 11 0) (input.getD 12 0)) : ℚ) / 100000
               hhmmss := fromLE4 (input.getD 1 0) (input.getD 2 0)
                        (input.getD 3 0) (input.getD 4 0)
               valid := true }) := by
  unfold GPS_parsePayload
  by_cases h1 : input.length = 13 <;> by_cases h2 : input.getD 0 0 = 1 <;>
    simp [h1, h2] <;> tauto

/-- A reported length of exactly 13 passes the clamping unchanged. -/
theorem clampLen_13 : clampLen 13 = 13 := rfl

/-- C10: every 13-byte input whose first byte is 1 is parsed successfully
by `GPS_parsePayload` and marked valid with no range validation — no bound
is required of the decoded time-of-day or coordinates — and the receive
tick stores the decoded sample in the cache when such a frame arrives
cleanly. The witness instantiates this with a frame whose time-of-day
decodes to 999999 and whose latitude field decodes to 21474.83647
degrees. -/
theorem c10_no_range_validation (input : List ℕ) (st : RxState) (env : RxEnv)
    (hlen : input.length = 13) (hmark : input.getD 0 0 = 1) :
    ∃ gi, GPS_parsePayload input = some gi ∧ gi.valid = true ∧
      (st.rxFlag = true → env.packetLength = 13 →
        env.readStatus = RADIOLIB_ERR_NONE → env.bytes = input →
        (LORA_rxTick st env).1.lastGps = gi) := by
  refine ⟨_, parse_success input hlen hmark, rfl, ?_⟩
  intro hflag hpl hrs hbytes
  have htake2 : input.take 13 = input := List.take_of_length_le (by omega)
  have hmark2 : input[0]?.getD 0 = 1 := by
    simpa [List.getD_eq_getElem?_getD] using hmark
  simp [LORA_rxTick, hflag, hpl, hrs, hbytes, clampLen_13, htake2,
        parse_success input hlen hmark, hmark2]

/-- Reducing twice into the `int32_t` range is the same as reducing once. -/
theorem wrap32_idem (i : ℤ) : wrap32 (wrap32 i) = wrap32 i := by
  unfold wrap32
  have e1 : (2 : ℤ) ^ 32 = 4294967296 := by norm_num
  have e2 : (2 : ℤ) ^ 31 = 2147483648 := by norm_num
  rw [e1, e2]
  omega

/-- A 32-bit field occupies four bytes. -/
theorem toLE4_length (v : ℕ) : (toLE4 v).length = 4 := rfl

/-- A signed 32-bit field occupies four bytes. -/
theorem int32Bytes_length (i : ℤ) : (int32Bytes i).length = 4 := rfl

/-- For a coordinate whose scaled value stays inside the `int32_t` range,
the stored field decodes back to exactly `lround` of the scaled value. -/
theorem coord_field_eq (x : ℚ) (B : ℤ) (hx : |x * 100000| ≤ (B : ℚ))
    (hB : B < 2 ^ 31) :
    toInt32 ((wrap32 (lround (x * 100000)) % 2 ^ 32).toNat) =
      lround (x * 100000) := by
  rw [toInt32_mod32, wrap32_idem]
  have hla : |lround (x * 100000)| ≤ B := abs_lround_le _ B hx
  rw [abs_le] at hla
  exact wrap32_eq_self _ (by omega) (by omega)

/-- Dividing the rounded scaled coordinate by 100000 lands within
1/200000 of the original coordinate. -/
theorem coord_error (x : ℚ) :
    |(lround (x * 100000) : ℚ) / 100000 - x| ≤ 1 / 200000 := by
  have h := abs_lround_sub (x * 100000)
  have e : (lround (x * 100000) : ℚ) / 100000 - x =
      ((lround (x * 100000) : ℚ) - x * 100000) / 100000 := by ring
  rw [e, abs_div, abs_of_pos (by norm_num : (0 : ℚ) < 100000)]
  linarith

/-- The bytes at offsets 1 to 4 of an encoded frame recombine to the
sample's time-of-day. -/
theorem build_hhmmssField (info : GpsInfo) (out : List ℕ)
    (hv : info.valid = true) (hlen : 13 ≤ out.length)
    (h32 : info.hhmmss < 2 ^ 32) :
    fromLE4 ((GPS_buildBinaryPayload info out).2.getD 1 0)
      ((GPS_buildBinaryPayload info out).2.getD 2 0)
      ((GPS_buildBinaryPayload info out).2.getD 3 0)
      ((GPS_buildBinaryPayload info out).2.getD 4 0) = info.hhmmss := by
  rw [build_success info out hv hlen]
  show fromLE4 (info.hhmmss % 256) (info.hhmmss / 256 % 256)
    (info.hhmmss / 65536 % 256) (info.hhmmss / 16777216 % 256) = info.hhmmss
  rw [fromLE4_digits, Nat.mod_eq_of_lt h32]

/-- The bytes at offsets 5 to 8 of an encoded frame recombine to the
wrapped rounded scaled latitude. -/
theorem build_latField (info : GpsInfo) (out : List ℕ)
    (hv : info.valid = true) (hlen : 13 ≤ out.length) :
    toInt32 (fromLE4 ((GPS_buildBinaryPayload info out).2.getD 5 0)
      ((GPS_buildBinaryPayload info out).2.getD 6 0)
      ((GPS_buildBinaryPayload info out).2.getD 7 0)
      ((GPS_buildBinaryPayload info out).2.getD 8 0)) =
        wrap32 (lround (info.lat * 100000)) := by
  rw [build_success info out hv hlen]
  have e5 : ((1 :: (toLE4 info.hhmmss ++
      int32Bytes (wrap32 (lround (info.lat * 100000))) ++
      int32Bytes (wrap32 (lround (info.lon * 100000))))) ++ out.drop 13).getD 5 0 =
      (wrap32 (lround (info.lat * 100000)) % 2 ^ 32).toNat % 256 := rfl
  have e6 : ((1 :: (toLE4 info.hhmmss ++
      int32Bytes (wrap32 (lround (info.lat * 100000))) ++
      int32Bytes (wrap32 (lround (info.lon * 100000))))) ++ out.drop 13).getD 6 0 =
      (wrap32 (lround (info.lat * 100000)) % 2 ^ 32).toNat / 256 % 256 := rfl
  have e7 : ((1 :: (toLE4 info.hhmmss ++
      int32Bytes (wrap32 (lround (info.lat * 100000))) ++
      int32Bytes (wrap32 (lround (info.lon * 100000))))) ++ out.drop 13).getD 7 0 =
      (wrap32 (lround (info.lat * 100000)) % 2 ^ 32).toNat / 65536 % 256 := rfl
  have e8 : ((1 :: (toLE4 info.hhmmss ++
      int32Bytes (wrap32 (lround (info.lat * 100000))) ++
      int32Bytes (wrap32 (lround (info.lon * 100000))))) ++ out.drop 13).getD 8 0 =
      (wrap32 (lround (info.lat * 100000)) % 2 ^ 32).toNat / 16777216 % 256 := rfl
  rw [e5, e6, e7, e8, fromLE4_digits, Nat.mod_eq_of_lt (mod32_toNat_lt _),
    toInt32_mod32, wrap32_idem]

/-- The bytes at offsets 9 to 12 of an encoded frame recombine to the
wrapped rounded scaled longitude. -/
theorem build_lonField (info : GpsInfo) (out : List ℕ)
    (hv : info.valid = true) (hlen : 13 ≤ out.length) :
    toInt32 (fromLE4 ((GPS_buildBinaryPayload info out).2.getD 9 0)
      ((GPS_buildBinaryPayload info out).2.getD 10 0)
      ((GPS_buildBinaryPayload info out).2.getD 11 0)
      ((GPS_buildBinaryPayload info out).2.getD 12 0)) =
        wrap32 (lround (info.lon * 100000)) := by
  rw [build_success info out hv hlen]
  have e9 : ((1 :: (toLE4 info.hhmmss ++
      int32Bytes (wrap32 (lround (info.lat * 100000))) ++
      int32Bytes (wrap32 (lround (info.lon * 100000))))) ++ out.drop 13).getD 9 0 =
      (wrap32 (lround (info.lon * 100000)) % 2 ^ 32).toNat % 256 := rfl
  have e10 : ((1 :: (toLE4 info.hhmmss ++
      int32Bytes (wrap32 (lround (info.lat * 100000))) ++
      int32Bytes (wrap32 (lround (info.lon * 100000))))) ++ out.drop 13).getD 10 0 =
      (wrap32 (lround (info.lon * 100000)) % 2 ^ 32).toNat / 256 % 256 := rfl
  have e11 : ((1 :: (toLE4 info.hhmmss ++
      int32Bytes (wrap32 (lround (info.lat * 100000))) ++
      int32Bytes (wrap32 (lround (info.lon * 100000))))) ++ out.drop 13).getD 11 0 =
      (wrap32 (lround (info.lon * 100000)) % 2 ^ 32).toNat / 65536 % 256 := rfl
  have e12 : ((1 :: (toLE4 info.hhmmss ++
      int32Bytes (wrap32 (lround (info.lat * 100000))) ++
      int32Bytes (wrap32 (lround (info.lon * 100000))))) ++ out.drop 13).getD 12 0 =
      (wrap32 (lround (info.lon * 100000)) % 2 ^ 32).toNat / 16777216 % 256 := rfl
  rw [e9, e10, e11, e12, fromLE4_digits, Nat.mod_eq_of_lt (mod32_toNat_lt _),
    toInt32_mod32, wrap32_idem]

/-- The encoder returns 13 on success. -/
theorem build_success_fst (info : GpsInfo) (out : List ℕ)
    (hv : info.valid = true) (hlen : 13 ≤ out.length) :
    (GPS_buildBinaryPayload info out).1 = 13 := by
  rw [build_success info out hv hlen]

/-- The buffer contents after a successful encode. -/
theorem build_success_bytes (info : GpsInfo) (out : List ℕ)
    (hv : info.valid = true) (hlen : 13 ≤ out.length) :
    (GPS_buildBinaryPayload info out).2 =
      (1 :: (toLE4 info.hhmmss ++
             int32Bytes (wrap32 (lround (info.lat * 100000))) ++
             int32Bytes (wrap32 (lround (info.lon * 100000))))) ++ out.drop 13 := by
  rw [build_success info out hv hlen]

/-- An integer bounded in absolute value below `2 ^ 31` is unchanged by
the `int32_t` cast. -/
theorem wrap32_eq_self_of_abs (i B : ℤ) (h : |i| ≤ B) (hB : B < 2 ^ 31) :
    wrap32 i = i := by
  rw [abs_le] at h
  have e : (2 : ℤ) ^ 31 = 2147483648 := by norm_num
  rw [e] at hB
  refine wrap32_eq_self i ?_ ?_ <;> rw [e] <;> omega

/-- C6: `GPS_buildBinaryPayload` fails (returns 0) when the sample is
invalid or the destination buffer holds fewer than 13 bytes, and then
writes nothing (the buffer is returned unchanged); on success it returns 13
and writes marker byte 1 at offset 0, the time-of-day as a little-endian
32-bit field at offset 1, and latitude×100000 and longitude×100000 —
rounded by `lround` and cast to `int32_t` — as little-endian signed 32-bit
fields at offsets 5 and 9, preserving the rest of the buffer. -/
theorem c6_encode_spec (info : GpsInfo) (out : List ℕ) :
    ((info.valid = false ∨ out.length < 13) →
      GPS_buildBinaryPayload info out = (0, out)) ∧
    (info.valid = true → info.hhmmss < 2 ^ 32 → 13 ≤ out.length →
      (GPS_buildBinaryPayload info out).1 = 13 ∧
      (GPS_buildBinaryPayload info out).2.getD 0 0 = 1 ∧
      fromLE4 ((GPS_buildBinaryPayload info out).2.getD 1 0)
        ((GPS_buildBinaryPayload info out).2.getD 2 0)
        ((GPS_buildBinaryPayload info out).2.getD 3 0)
        ((GPS_buildBinaryPayload info out).2.getD 4 0) = info.hhmmss ∧
      toInt32 (fromLE4 ((GPS_buildBinaryPayload info out).2.getD 5 0)
        ((GPS_buildBinaryPayload info out).2.getD 6 0)
        ((GPS_buildBinaryPayload info out).2.getD 7 0)
        ((GPS_buildBinaryPayload info out).2.getD 8 0)) =
          wrap32 (lround (info.lat * 100000)) ∧
      toInt32 (fromLE4 ((GPS_buildBinaryPayload info out).2.getD 9 0)
        ((GPS_buildBinaryPayload info out).2.getD 10 0)
        ((GPS_buildBinaryPayload info out).2.getD 11 0)
        ((GPS_buildBinaryPayload info out).2.getD 12 0)) =
          wrap32 (lround (info.lon * 100000)) ∧
      (GPS_buildBinaryPayload info out).2.drop 13 = out.drop 13 ∧
      (GPS_buildBinaryPayload info out).2.length = out.length) := by
  constructor
  · intro h
    unfold GPS_buildBinaryPayload
    rw [if_pos (by tauto)]
  · intro hv h32 hlen
    refine ⟨build_success_fst info out hv hlen, ?_,
      build_hhmmssField info out hv hlen h32,
      build_latField info out hv hlen, build_lonField info out hv hlen,
      ?_, ?_⟩
    · rw [build_success_bytes info out hv hlen]
      rfl
    · rw [build_success_bytes info out hv hlen]
      rfl
    · rw [build_success_bytes info out hv hlen]
      simp [toLE4_length, int32Bytes_length, List.length_append,
        List.length_drop]
      omega

/-- The latitude fixed-point field (offsets 5 to 8, little-endian signed
32-bit) of the frame `GPS_buildBinaryPayload` writes into a fresh 13-byte
buffer. -/
def latFieldWritten (info : GpsInfo) : ℤ :=
  toInt32 (fromLE4
    ((GPS_buildBinaryPayload info (List.replicate 13 0)).2.getD 5 0)
    ((GPS_buildBinaryPayload info (List.replicate 13 0)).2.getD 6 0)
    ((GPS_buildBinaryPayload info (List.replicate 13 0)).2.getD 7 0)
    ((GPS_buildBinaryPayload info (List.replicate 13 0)).2.getD 8 0))

/-- The longitude fixed-point field (offsets 9 to 12, little-endian signed
32-bit) of the frame `GPS_buildBinaryPayload` writes into a fresh 13-byte
buffer. -/
def lonFieldWritten (info : GpsInfo) : ℤ :=
  toInt32 (fromLE4
    ((GPS_buildBinaryPayload info (List.replicate 13 0)).2.getD 9 0)
    ((GPS_buildBinaryPayload info (List.replicate 13 0)).2.getD 10 0)
    ((GPS_buildBinaryPayload info (List.replicate 13 0)).2.getD 11 0)
    ((GPS_buildBinaryPayload info (List.replicate 13 0)).2.getD 12 0))

/-- A coordinate bounded by `c` in absolute value scales to at most
`c * 100000`. -/
theorem abs_lat_bound (x : ℚ) (c : ℚ) (B : ℤ) (h1 : -c ≤ x) (h2 : x ≤ c)
    (hB : c * 100000 = (B : ℚ)) : |x * 100000| ≤ (B : ℚ) := by
  rw [abs_mul, abs_of_pos (by norm_num : (0 : ℚ) < 100000), ← hB]
  have hx : |x| ≤ c := abs_le.mpr ⟨h1, h2⟩
  nlinarith [abs_nonneg x]

/-- C7: for every valid sample with coordinates in range, the fixed-point
fields written by `GPS_buildBinaryPayload` are latitude×100000 and
longitude×100000 rounded to the nearest integer with ties away from zero:
each field is within 1/2 of the scaled coordinate, at an exact halfway
point the field's absolute value strictly exceeds the scaled coordinate's
(round-half-away-from-zero), and the quantization error is bounded by
0.5×10⁻⁵ degrees. -/
theorem c7_round_half_away (info : GpsInfo) (hv : info.valid = true)
    (hlat1 : -90 ≤ info.lat) (hlat2 : info.lat ≤ 90)
    (hlon1 : -180 ≤ info.lon) (hlon2 : info.lon ≤ 180) :
    |info.lat * 100000 - (latFieldWritten info : ℚ)| ≤ 1 / 2 ∧
    (|info.lat * 100000 - (latFieldWritten info : ℚ)| = 1 / 2 →
      |info.lat * 100000| < |(latFieldWritten info : ℚ)|) ∧
    |info.lat - (latFieldWritten info : ℚ) / 100000| ≤ 1 / 200000 ∧
    |info.lon * 100000 - (lonFieldWritten info : ℚ)| ≤ 1 / 2 ∧
    (|info.lon * 100000 - (lonFieldWritten info : ℚ)| = 1 / 2 →
      |info.lon * 100000| < |(lonFieldWritten info : ℚ)|) ∧
    |info.lon - (lonFieldWritten info : ℚ) / 100000| ≤ 1 / 200000 := by
  have hlatB : |info.lat * 100000| ≤ ((9000000 : ℤ) : ℚ) :=
    abs_lat_bound info.lat 90 9000000 hlat1 hlat2 (by norm_num)
  have hlonB : |info.lon * 100000| ≤ ((18000000 : ℤ) : ℚ) :=
    abs_lat_bound info.lon 180 18000000 hlon1 hlon2 (by norm_num)
  have klat : latFieldWritten info = lround (info.lat * 100000) := by
    unfold latFieldWritten
    rw [build_latField info _ hv (by simp)]
    exact wrap32_eq_self_of_abs _ 9000000
      (abs_lround_le _ _ hlatB) (by norm_num)
  have klon : lonFieldWritten info = lround (info.lon * 100000) := by
    unfold lonFieldWritten
    rw [build_lonField info _ hv (by simp)]
    exact wrap32_eq_self_of_abs _ 18000000
      (abs_lround_le _ _ hlonB) (by norm_num)
  rw [klat, klon]
  refine ⟨?_, ?_, ?_, ?_, ?_, ?_⟩
  · rw [abs_sub_comm]
    exact abs_lround_sub _
  · intro h
    exact lround_tie_away _ h
  · rw [abs_sub_comm]
    exact coord_error _
  · rw [abs_sub_comm]
    exact abs_lround_sub _
  · intro h
    exact lround_tie_away _ h
  · rw [abs_sub_comm]
    exact coord_error _

/-- C1: for every sample with valid=true, latitude in [-90, 90], longitude
in [-180, 180] and time-of-day in [0, 235959], encoding with
`GPS_buildBinaryPayload` into a 13-byte buffer succeeds (returns 13) and
decoding the result with `GPS_parsePayload` succeeds, reproduces the
time-of-day exactly, and reproduces latitude and longitude within
0.5×10⁻⁵ degrees each. -/
theorem c1_roundtrip (info : GpsInfo) (hv : info.valid = true)
    (hlat1 : -90 ≤ info.lat) (hlat2 : info.lat ≤ 90)
    (hlon1 : -180 ≤ info.lon) (hlon2 : info.lon ≤ 180)
    (hh : info.hhmmss ≤ 235959) :
    (GPS_buildBinaryPayload info (List.replicate 13 0)).1 = 13 ∧
    ∃ gi, GPS_parsePayload
        ((GPS_buildBinaryPayload info (List.replicate 13 0)).2) = some gi ∧
      gi.hhmmss = info.hhmmss ∧ gi.valid = true ∧
      |gi.lat - info.lat| ≤ 1 / 200000 ∧ |gi.lon - info.lon| ≤ 1 / 200000 := by
  have h32 : info.hhmmss < 2 ^ 32 := by
    have e : (2 : ℕ) ^ 32 = 4294967296 := by norm_num
    omega
  have hlatB : |info.lat * 100000| ≤ ((9000000 : ℤ) : ℚ) :=
    abs_lat_bound info.lat 90 9000000 hlat1 hlat2 (by norm_num)
  have hlonB : |info.lon * 100000| ≤ ((18000000 : ℤ) : ℚ) :=
    abs_lat_bound info.lon 180 18000000 hlon1 hlon2 (by norm_num)
  have hdrop : (List.replicate 13 (0 : ℕ)).drop 13 = [] := rfl
  refine ⟨build_success_fst info _ hv (by simp), ?_⟩
  rw [build_success_bytes info _ hv (by simp), hdrop, List.append_nil]
  simp only [int32Bytes]
  rw [parse_frame info.hhmmss _ _ h32 (mod32_toNat_lt _) (mod32_toNat_lt _)]
  refine ⟨_, rfl, rfl, rfl, ?_, ?_⟩
  · dsimp only
    rw [coord_field_eq info.lat 9000000 hlatB (by norm_num)]
    exact coord_error _
  · dsimp only
    rw [coord_field_eq info.lon 18000000 hlonB (by norm_num)]
    exact coord_error _

/-- C2: for every payload of length between 1 and 256 bytes, a second call
to the transmit-session start operation made while a transmission is
already in flight is rejected and leaves the in-flight state — the
completion flag and the recorded status of the outstanding transmission —
completely unchanged. -/
theorem c2_second_start_rejected (payload : List ℕ) (d : ℤ) (st : TxState)
    (hl1 : 1 ≤ payload.length) (hl2 : payload.length ≤ 256)
    (hin : st.txInProgress = true) :
    TX_sessionStart payload d st = (false, st) := by
  unfold TX_sessionStart
  rw [if_pos hin]

/-- A tick whose send attempt is accepted had a fresh time-of-day and
records it as the new dedupe key. -/
theorem loopTick_accepted_facts (isr hf : Bool) (info : GpsInfo) (d : ℤ)
    (st : TxState) (h : (loopTick isr hf info d st).2.2 = true) :
    st.lastSentHHMMSS ≠ info.hhmmss ∧
    (loopTick isr hf info d st).1.lastSentHHMMSS = info.hhmmss := by
  simp only [loopTick, LORA_isTxDone, LORA_finishTx, LORA_startTx] at h ⊢
  split_ifs at h <;> simp_all <;> tauto

/-- On an idle tick with a valid fix, a send is attempted exactly when the
dedupe and timing conditions hold. -/
theorem loopTick_idle_attempt (isr : Bool) (info : GpsInfo) (d : ℤ)
    (st : TxState) (hP : st.txInProgress = false) (hv : info.valid = true) :
    ((loopTick isr true info d st).2.1 = true ↔
      info.hhmmss ≠ st.lastSentHHMMSS ∧ info.hhmmss % 100 % PERIOD = 0) := by
  simp only [loopTick, LORA_isTxDone, LORA_finishTx, LORA_startTx]
  cases isr <;> simp [hP, hv, GPS_buildBinaryPayload] <;> split_ifs <;>
    simp_all

/-- C3 (amended): on every scheduler tick with a valid fix and no
transmission in flight, a send is attempted iff the sample's time-of-day
differs from the last successfully started send's and (time-of-day mod
100) mod PERIOD = 0; with PERIOD = 10, ticks ending in seconds 00, 05, 10,
07 decide fire, no-fire, fire, no-fire; and between two ticks carrying the
same time-of-day at most one send attempt is accepted by the driver. The
original claim — at most one send *attempted* — fails when the driver
rejects the first attempt, because the dedupe key is recorded only on
acceptance; see the counterexample. -/
theorem c3_scheduler_amended :
    (∀ (isr : Bool) (info : GpsInfo) (d : ℤ) (st : TxState),
      st.txInProgress = false → info.valid = true →
      ((loopTick isr true info d st).2.1 = true ↔
        info.hhmmss ≠ st.lastSentHHMMSS ∧ info.hhmmss % 100 % PERIOD = 0)) ∧
    (∀ (isr1 isr2 : Bool) (info : GpsInfo) (d1 d2 : ℤ) (st : TxState),
      ¬((loopTick isr1 true info d1 st).2.2 = true ∧
        (loopTick isr2 true info d2
          (loopTick isr1 true info d1 st).1).2.2 = true)) ∧
    ((loopTick false true ⟨0, 0, 120000, true⟩ 0
        ⟨false, 0, false, 0⟩).2.1 = true ∧
      (loopTick true true ⟨0, 0, 120005, true⟩ 0
        (loopTick false true ⟨0, 0, 120000, true⟩ 0
          ⟨false, 0, false, 0⟩).1).2.1 = false ∧
      (loopTick false true ⟨0, 0, 120010, true⟩ 0
        (loopTick true true ⟨0, 0, 120005, true⟩ 0
          (loopTick false true ⟨0, 0, 120000, true⟩ 0
            ⟨false, 0, false, 0⟩).1).1).2.1 = true ∧
      (loopTick true true ⟨0, 0, 120007, true⟩ 0
        (loopTick false true ⟨0, 0, 120010, true⟩ 0
          (loopTick true true ⟨0, 0, 120005, true⟩ 0
            (loopTick false true ⟨0, 0, 120000, true⟩ 0
              ⟨false, 0, false, 0⟩).1).1).1).2.1 = false) := by
  refine ⟨loopTick_idle_attempt, ?_, by decide⟩
  rintro isr1 isr2 info d1 d2 st ⟨h1, h2⟩
  have f1 := (loopTick_accepted_facts isr1 true info d1 st h1).2
  have f2 := (loopTick_accepted_facts isr2 true info d2 _ h2).1
  exact f2 f1

/-- C3 counterexample: with time-of-day 100010 (seconds 10, multiple of
PERIOD = 10) and a driver that rejects the transmission (status -1), two
consecutive ticks carrying the same time-of-day both attempt a send — the
failed first attempt does not update the dedupe key, contradicting the
claim that two ticks with the same time-of-day attempt at most one send
between them. -/
theorem c3_counterexample :
    (loopTick false true ⟨0, 0, 100010, true⟩ (-1)
      ⟨false, 0, false, 0⟩).2.1 = true ∧
    (loopTick false true ⟨0, 0, 100010, true⟩ (-1)
      (loopTick false true ⟨0, 0, 100010, true⟩ (-1)
        ⟨false, 0, false, 0⟩).1).2.1 = true := by decide

/-- C8: calling the receive tick with the frame-ready flag clear is a
no-op: it performs no driver reads, reads no bytes, and returns the state
— cache, metrics and flag — unchanged. -/
theorem c8_rx_noop (st : RxState) (env : RxEnv) (h : st.rxFlag = false) :
    LORA_rxTick st env = (st, ⟨0, 0⟩) := by
  simp [LORA_rxTick, h]

/-- C9: the number of bytes the receive tick reads never exceeds the
buffer capacity LORA_MAX_READ = 64: a reported length ≤ 0 falls back to
64, a reported length above 64 is clamped to 64, and a length in 1..64 is
used as reported. -/
theorem c9_bounded_read (st : RxState) (env : RxEnv) (hf : st.rxFlag = true) :
    (LORA_rxTick st env).2.bytesRead = (clampLen env.packetLength).toNat ∧
    (clampLen env.packetLength).toNat ≤ 64 ∧
    (env.packetLength ≤ 0 → clampLen env.packetLength = LORA_MAX_READ) ∧
    (64 < env.packetLength → clampLen env.packetLength = LORA_MAX_READ) ∧
    (0 < env.packetLength → env.packetLength ≤ 64 →
      clampLen env.packetLength = env.packetLength) := by
  refine ⟨?_, ?_, ?_, ?_, ?_⟩
  · simp only [LORA_rxTick]
    rw [if_neg (by simp [hf])]
    split_ifs
    · split
      · split_ifs <;> rfl
      · rfl
    · rfl
    · rfl
  · simp only [clampLen, LORA_MAX_READ]
    split_ifs <;> omega
  · intro h
    simp only [clampLen, LORA_MAX_READ]
    split_ifs <;> omega
  · intro h
    simp only [clampLen, LORA_MAX_READ]
    split_ifs <;> omega
  · intro h1 h2
    simp only [clampLen, LORA_MAX_READ]
    split_ifs <;> omega

/-- C4 (amended): processing a malformed frame — length not 13, marker
byte not 1, or decode failure — leaves the cached sample unchanged, and
the cache validity is never cleared once set; the signal-strength and
signal-to-noise metrics, however, are re-recorded from the driver on every
clean read regardless of payload content, so they need not still equal the
prior sample's metrics. -/
theorem c4_cache_amended (st : RxState) (env : RxEnv) :
    ((clampLen env.packetLength ≠ 13 ∨
      (env.bytes.take (clampLen env.packetLength).toNat).getD 0 0 ≠ 1 ∨
      GPS_parsePayload
        (env.bytes.take (clampLen env.packetLength).toNat) = none) →
      (LORA_rxTick st env).1.lastGps = st.lastGps) ∧
    (st.lastGps.valid = true → (LORA_rxTick st env).1.lastGps.valid = true) ∧
    (st.rxFlag = true → env.readStatus = RADIOLIB_ERR_NONE →
      (LORA_rxTick st env).1.lastRssi = env.rssi ∧
      (LORA_rxTick st env).1.lastSnr = env.snr) := by
  refine ⟨?_, ?_, ?_⟩
  · intro hmal
    simp only [LORA_rxTick]
    split_ifs <;> try rfl
    case _ hflag hrs hcond =>
      rcases hmal with hm | hm | hm
      · exact absurd hcond.1 hm
      · exact absurd hcond.2 hm
      · rw [hm]
  · intro hvalid
    simp only [LORA_rxTick]
    split_ifs <;> try exact hvalid
    split
    case _ gi hgi => split_ifs <;> simp_all
    case _ => exact hvalid
  · intro hflag hrs
    simp only [LORA_rxTick]
    rw [if_neg (by simp [hflag]), if_pos hrs]
    split_ifs
    · split
      · split_ifs <;> exact ⟨rfl, rfl⟩
      · exact ⟨rfl, rfl⟩
    · exact ⟨rfl, rfl⟩

/-- C4 counterexample: a receive state caching a prior valid sample with
RSSI -50 processes a cleanly read malformed frame (length 5): the cached
sample is preserved, but the recorded signal strength becomes the new
frame's -80 — the cached metrics no longer equal the prior sample's
metrics, contrary to the claim. -/
theorem c4_counterexample :
    (⟨true, ⟨40, -3, 211507, true⟩, -50, 5⟩ : RxState).lastGps.valid = true ∧
    clampLen (⟨5, [0, 0, 0, 0, 0], 0, -80, 3⟩ : RxEnv).packetLength ≠ 13 ∧
    (LORA_rxTick ⟨true, ⟨40, -3, 211507, true⟩, -50, 5⟩
        ⟨5, [0, 0, 0, 0, 0], 0, -80, 3⟩).1.lastGps =
      (⟨40, -3, 211507, true⟩ : GpsInfo) ∧
    (LORA_rxTick ⟨true, ⟨40, -3, 211507, true⟩, -50, 5⟩
        ⟨5, [0, 0, 0, 0, 0], 0, -80, 3⟩).1.lastRssi ≠ -50 := by
  refine ⟨rfl, by decide, rfl, by decide⟩

/-- Witness for C1 at the sample (lat 40, lon -3, time-of-day 211507). -/
theorem c1_roundtrip_witness :
    (GPS_buildBinaryPayload ⟨40, -3, 211507, true⟩
      (List.replicate 13 0)).1 = 13 ∧
    ∃ gi, GPS_parsePayload
        ((GPS_buildBinaryPayload ⟨40, -3, 211507, true⟩
          (List.replicate 13 0)).2) = some gi ∧
      gi.hhmmss = 211507 ∧ gi.valid = true ∧
      |gi.lat - 40| ≤ 1 / 200000 ∧ |gi.lon - (-3)| ≤ 1 / 200000 :=
  c1_roundtrip ⟨40, -3, 211507, true⟩ rfl (by norm_num) (by norm_num)
    (by norm_num) (by norm_num) (by norm_num)

/-- Witness for C2: a 3-byte payload against an in-flight session. -/
theorem c2_witness :
    1 ≤ ([1, 2, 3] : List ℕ).length ∧ ([1, 2, 3] : List ℕ).length ≤ 256 ∧
    (⟨false, 0, true, 7⟩ : TxState).txInProgress = true ∧
    TX_sessionStart [1, 2, 3] 0 ⟨false, 0, true, 7⟩ =
      (false, ⟨false, 0, true, 7⟩) :=
  ⟨by norm_num, by norm_num, rfl,
    c2_second_start_rejected [1, 2, 3] 0 ⟨false, 0, true, 7⟩
      (by norm_num) (by norm_num) rfl⟩

/-- Witness for C7 at the sample (lat 40, lon -3, time-of-day 211507). -/
theorem c7_witness :
    |(40 : ℚ) * 100000 - (latFieldWritten ⟨40, -3, 211507, true⟩ : ℚ)| ≤ 1 / 2 ∧
    (|(40 : ℚ) * 100000 - (latFieldWritten ⟨40, -3, 211507, true⟩ : ℚ)| = 1 / 2 →
      |(40 : ℚ) * 100000| < |(latFieldWritten ⟨40, -3, 211507, true⟩ : ℚ)|) ∧
    |(40 : ℚ) - (latFieldWritten ⟨40, -3, 211507, true⟩ : ℚ) / 100000| ≤
      1 / 200000 ∧
    |(-3 : ℚ) * 100000 - (lonFieldWritten ⟨40, -3, 211507, true⟩ : ℚ)| ≤ 1 / 2 ∧
    (|(-3 : ℚ) * 100000 - (lonFieldWritten ⟨40, -3, 211507, true⟩ : ℚ)| = 1 / 2 →
      |(-3 : ℚ) * 100000| < |(lonFieldWritten ⟨40, -3, 211507, true⟩ : ℚ)|) ∧
    |(-3 : ℚ) - (lonFieldWritten ⟨40, -3, 211507, true⟩ : ℚ) / 100000| ≤
      1 / 200000 :=
  c7_round_half_away ⟨40, -3, 211507, true⟩ rfl (by norm_num) (by norm_num)
    (by norm_num) (by norm_num)

/-- Witness for C8: a cleared-flag state is returned untouched with zero
driver reads. -/
theorem c8_witness :
    (⟨false, ⟨0, 0, 0, false⟩, 0, 0⟩ : RxState).rxFlag = false ∧
    LORA_rxTick ⟨false, ⟨0, 0, 0, false⟩, 0, 0⟩ ⟨13, [], 0, 0, 0⟩ =
      (⟨false, ⟨0, 0, 0, false⟩, 0, 0⟩, ⟨0, 0⟩) :=
  ⟨rfl, c8_rx_noop ⟨false, ⟨0, 0, 0, false⟩, 0, 0⟩ ⟨13, [], 0, 0, 0⟩ rfl⟩

/-- Witness for C9 at reported packet length 100. -/
theorem c9_witness :
    (⟨true, ⟨0, 0, 0, false⟩, 0, 0⟩ : RxState).rxFlag = true ∧
    ((LORA_rxTick ⟨true, ⟨0, 0, 0, false⟩, 0, 0⟩
        ⟨100, [], 0, 0, 0⟩).2.bytesRead = (clampLen 100).toNat ∧
      (clampLen 100).toNat ≤ 64 ∧
      ((100 : ℤ) ≤ 0 → clampLen 100 = LORA_MAX_READ) ∧
      (64 < (100 : ℤ) → clampLen 100 = LORA_MAX_READ) ∧
      (0 < (100 : ℤ) → (100 : ℤ) ≤ 64 → clampLen 100 = 100)) :=
  ⟨rfl, c9_bounded_read ⟨true, ⟨0, 0, 0, false⟩, 0, 0⟩ ⟨100, [], 0, 0, 0⟩ rfl⟩

/-- Witness for C10: a frame whose time-of-day field decodes to 999999 and
whose latitude field decodes to 2147483647 (21474.83647 degrees) is parsed
valid and stored in the cache. -/
theorem c10_witness :
    ([1, 63, 66, 15, 0, 255, 255, 255, 127, 0, 0, 0, 0] : List ℕ).length = 13 ∧
    ([1, 63, 66, 15, 0, 255, 255, 255, 127, 0, 0, 0, 0] : List ℕ).getD 0 0 = 1 ∧
    ∃ gi, GPS_parsePayload
        [1, 63, 66, 15, 0, 255, 255, 255, 127, 0, 0, 0, 0] = some gi ∧
      gi.valid = true ∧
      ((⟨true, ⟨0, 0, 0, false⟩, 0, 0⟩ : RxState).rxFlag = true →
        (⟨13, [1, 63, 66, 15, 0, 255, 255, 255, 127, 0, 0, 0, 0], 0, 0, 0⟩ :
          RxEnv).packetLength = 13 →
        (⟨13, [1, 63, 66, 15, 0, 255, 255, 255, 127, 0, 0, 0, 0], 0, 0, 0⟩ :
          RxEnv).readStatus = RADIOLIB_ERR_NONE →
        (⟨13, [1, 63, 66, 15, 0, 255, 255, 255, 127, 0, 0, 0, 0], 0, 0, 0⟩ :
          RxEnv).bytes = [1, 63, 66, 15, 0, 255, 255, 255, 127, 0, 0, 0, 0] →
        (LORA_rxTick ⟨true, ⟨0, 0, 0, false⟩, 0, 0⟩
          ⟨13, [1, 63, 66, 15, 0, 255, 255, 255, 127, 0, 0, 0, 0],
            0, 0, 0⟩).1.lastGps = gi) :=
  ⟨rfl, rfl, c10_no_range_validation
    [1, 63, 66, 15, 0, 255, 255, 255, 127, 0, 0, 0, 0]
    ⟨true, ⟨0, 0, 0, false⟩, 0, 0⟩
    ⟨13, [1, 63, 66, 15, 0, 255, 255, 255, 127, 0, 0, 0, 0], 0, 0, 0⟩
    rfl rfl⟩
